import Mathlib

/-!
Verification of the stock-status and forecasting engine of the stockalert
repository: a shallow embedding of the forecaster service
(src/services/forecaster.py) and the monitor service
(src/services/monitor.py), followed by theorems settling the claims about
the specification. Machine floats are modelled as rationals, and the
Python builtins used by the code are embedded explicitly: int() as
truncation toward zero, float floor division as the mathematical floor of
the quotient, and round(x, 2) as half-to-even rounding at two decimals.
Arithmetic on those rationals is exact except on the stock-percentage
path of the monitor, whose claims are sensitive to rounding: there the
binary64 round-to-nearest-even of each operation is modelled explicitly
by fl64 below.
-/

/-- Python int() applied to a float: truncation toward zero. -/
def pyInt (q : ℚ) : ℤ := if q < 0 then ⌈q⌉ else ⌊q⌋

/-- Rounding of a rational to the nearest integer, ties to the even
integer, as Python round does on exactly representable values. -/
def roundHalfEven (q : ℚ) : ℤ :=
  if q - (⌊q⌋ : ℚ) < 1 / 2 then ⌊q⌋
  else if (1 : ℚ) / 2 < q - (⌊q⌋ : ℚ) then ⌊q⌋ + 1
  else if ⌊q⌋ % 2 = 0 then ⌊q⌋ else ⌊q⌋ + 1

/-- Python round(x, 2): round to two decimal places. -/
def round2 (q : ℚ) : ℚ := (roundHalfEven (q * 100) : ℚ) / 100

/-- Exponent of a nonzero rational seen as a binary64 value: the integer
e with 2 pow e at most the magnitude, which stays below 2 pow (e+1). -/
def floatExp (q : ℚ) : ℤ := Int.log 2 |q|

/-- Round a rational to the nearest IEEE binary64 double, ties to even:
scale into the 53-bit significand range, round to an integer half to
even, and scale back. The exponent range is unbounded in this model:
binary64 overflow and subnormal behaviour are not modelled, as they need
magnitudes far outside any stock percentage arising here. -/
def fl64 (q : ℚ) : ℚ :=
  if q = 0 then 0
  else (roundHalfEven (q * 2 ^ (52 - floatExp q)) : ℚ) * 2 ^ (floatExp q - 52)

/-- One line item of a sales order: a catalog object id and a quantity
(the Python code reads the quantity with float()). -/
structure LineItem where
  catalog_object_id : String
  quantity : ℚ
deriving DecidableEq, Repr

/-- One sales order: the forecaster only reads its list of line items. -/
structure SalesOrder where
  line_items : List LineItem
deriving DecidableEq, Repr

/-- ForecasterService.calculate_velocity: sum the quantities of the line
items whose catalog object id matches the product, over the whole supplied
history, divide by the day count when it is positive, and round the result
to two decimal places. -/
def calculate_velocity (product_id : String) (sales_history : List SalesOrder)
    (days : ℤ) : ℚ :=
  let total_units : ℚ := sales_history.foldl
    (fun acc order => order.line_items.foldl
      (fun a li => if li.catalog_object_id = product_id then a + li.quantity else a)
      acc)
    0
  let velocity : ℚ := if 0 < days then total_units / (days : ℚ) else 0
  round2 velocity

/-- Specification-style restatement of the matched total: the sum, over
all orders, of the quantities of the line items whose catalog object id is
the given product id. -/
def productUnits (product_id : String) (sales_history : List SalesOrder) : ℚ :=
  (sales_history.map (fun o =>
    ((o.line_items.filter (fun li => li.catalog_object_id = product_id)).map
      (fun li => li.quantity)).sum)).sum

/-- ForecasterService.calculate_days_until_stockout: None when the
velocity is not positive, otherwise int(current_stock / velocity). -/
def calculate_days_until_stockout (current_stock : ℤ) (velocity : ℚ) :
    Option ℤ :=
  if velocity ≤ 0 then none
  else some (pyInt ((current_stock : ℚ) / velocity))

/-- ForecasterService.calculate_reorder_quantity: 0 for non-positive
velocity; otherwise target stock is velocity times the covered days, the
raw quantity is target minus current, clamped so current plus quantity
does not exceed max, then a positive quantity is rounded with float floor
division to a multiple of 5 (when at most 20) or 10, and the result is
max(0, int(quantity)). -/
def calculate_reorder_quantity (velocity : ℚ) (current_stock max_stock : ℤ)
    (lead_time_days safety_stock_days : ℤ) : ℤ :=
  if velocity ≤ 0 then 0
  else
    let total_days : ℤ := lead_time_days + safety_stock_days
    let target_stock : ℚ := velocity * (total_days : ℚ)
    let reorder0 : ℚ := target_stock - (current_stock : ℚ)
    let reorder1 : ℚ :=
      if (max_stock : ℚ) < (current_stock : ℚ) + reorder0 then
        (max_stock : ℚ) - (current_stock : ℚ)
      else reorder0
    let reorder2 : ℚ :=
      if 0 < reorder1 then
        if reorder1 ≤ 20 then (⌊(reorder1 + 4) / 5⌋ : ℚ) * 5
        else (⌊(reorder1 + 9) / 10⌋ : ℚ) * 10
      else reorder1
    max 0 (pyInt reorder2)

/-- MonitorService._determine_status: out_of_stock on zero stock, then
critical, low, healthy by comparing the percentage with the thresholds. -/
def determine_status (critical_threshold low_threshold : ℚ)
    (stock_percentage : ℚ) (current_stock : ℤ) : String :=
  if current_stock = 0 then "out_of_stock"
  else if stock_percentage ≤ critical_threshold then "critical"
  else if stock_percentage ≤ low_threshold then "low"
  else "healthy"

/-- Alert type enumeration of src/models/alert.py. -/
inductive AlertType where
  | low_stock
  | critical_stock
  | out_of_stock
  | reorder_suggested
  | velocity_anomaly
deriving DecidableEq, Repr

/-- Alert severity enumeration of src/models/alert.py. -/
inductive AlertSeverity where
  | info
  | warning
  | critical
deriving DecidableEq, Repr

/-- Structured form of the alert message f-strings built by
generate_alerts: each constructor is one template together with the values
interpolated into it, keeping the text content while leaving decimal
formatting out of scope. -/
inductive AlertMessage where
  | outOfStock (product_name : String)
  | criticalStock (product_name : String) (current_stock : ℤ)
      (stock_percentage : ℚ)
  | lowStock (product_name : String) (current_stock : ℤ)
      (stock_percentage : ℚ)
  | reorderSuggested (product_name : String) (days_until_stockout : ℤ)
deriving DecidableEq, Repr

/-- Structured form of the suggested_action f-strings of
generate_alerts. -/
inductive SuggestedAction where
  | urgentReorder (quantity : ℤ)
  | reorderImmediately (quantity : ℤ)
  | considerReordering (quantity : ℤ)
  | reorderToOptimal (quantity : ℤ)
deriving DecidableEq, Repr

/-- The AlertCreate model of src/models/alert.py. -/
structure AlertCreate where
  product_id : String
  location_id : String
  alert_type : AlertType
  severity : AlertSeverity
  message : AlertMessage
  current_stock : ℤ
  suggested_action : Option SuggestedAction
deriving DecidableEq, Repr

/-- One stock snapshot record as built by check_stock_levels and consumed
by generate_alerts. -/
structure StockSnapshot where
  product_id : String
  product_name : String
  location_id : String
  current_stock : ℤ
  max_stock : ℤ
  stock_percentage : ℚ
  status : String
  velocity : ℚ
  days_until_stockout : Option ℤ
  suggested_reorder_quantity : ℤ
deriving DecidableEq, Repr

/-- The alert produced for a single snapshot by the if/elif chain of
MonitorService.generate_alerts, none when no rule fires. The reorder rule
matches the Python condition days_until_stockout and days_until_stockout
<= 7 and srq > 0, whose first conjunct is a truthiness test: it fails both
on None and on 0. -/
def snapshotAlert (critical_threshold low_threshold : ℚ)
    (s : StockSnapshot) : Option AlertCreate :=
  if s.current_stock = 0 then
    some { product_id := s.product_id, location_id := s.location_id,
           alert_type := AlertType.out_of_stock,
           severity := AlertSeverity.critical,
           message := AlertMessage.outOfStock s.product_name,
           current_stock := s.current_stock,
           suggested_action :=
             some (SuggestedAction.urgentReorder s.suggested_reorder_quantity) }
  else if s.stock_percentage ≤ critical_threshold then
    some { product_id := s.product_id, location_id := s.location_id,
           alert_type := AlertType.critical_stock,
           severity := AlertSeverity.critical,
           message := AlertMessage.criticalStock s.product_name
             s.current_stock s.stock_percentage,
           current_stock := s.current_stock,
           suggested_action :=
             some (SuggestedAction.reorderImmediately
               s.suggested_reorder_quantity) }
  else if s.stock_percentage ≤ low_threshold then
    some { product_id := s.product_id, location_id := s.location_id,
           alert_type := AlertType.low_stock,
           severity := AlertSeverity.warning,
           message := AlertMessage.lowStock s.product_name
             s.current_stock s.stock_percentage,
           current_stock := s.current_stock,
           suggested_action :=
             some (SuggestedAction.considerReordering
               s.suggested_reorder_quantity) }
  else
    match s.days_until_stockout with
    | none => none
    | some d =>
      if d ≠ 0 ∧ d ≤ 7 ∧ 0 < s.suggested_reorder_quantity then
        some { product_id := s.product_id, location_id := s.location_id,
               alert_type := AlertType.reorder_suggested,
               severity := AlertSeverity.info,
               message := AlertMessage.reorderSuggested s.product_name d,
               current_stock := s.current_stock,
               suggested_action :=
                 some (SuggestedAction.reorderToOptimal
                   s.suggested_reorder_quantity) }
      else none

/-- MonitorService.generate_alerts: the loop appends, for each snapshot,
the alert of the first matching rule, if any. -/
def generate_alerts (critical_threshold low_threshold : ℚ)
    (stock_levels : List StockSnapshot) : List AlertCreate :=
  stock_levels.foldl
    (fun alerts s =>
      alerts ++ (snapshotAlert critical_threshold low_threshold s).toList)
    []

/-- One inventory count record as returned by the inventory provider:
the monitor reads the catalog object id and the quantity (through
int()). -/
structure InvItem where
  catalog_object_id : String
  quantity : ℤ
deriving DecidableEq, Repr

/-- One catalog item as returned by the inventory provider: the monitor
reads the id and the name. -/
structure CatalogItem where
  id : String
  name : String
deriving DecidableEq, Repr

/-- The body of the check_stock_levels loop for one inventory item: skip
the item when no catalog entry has its id, otherwise build the snapshot
with the hard-coded max_stock of 100, the percentage from the unguarded
division, the status, the stockout projection behind the velocity > 0
test, and the suggested reorder quantity with the default lead time and
safety stock of 7 days each. The percentage is computed in Python float
arithmetic, (current_stock / max_stock) * 100, so both the division and
the multiplication round to binary64; fl64 models that rounding. -/
def processInvItem (critical_threshold low_threshold : ℚ)
    (location_id : String) (catalog : List CatalogItem)
    (sales_history : List SalesOrder) (inv_item : InvItem) :
    Option StockSnapshot :=
  (catalog.find? (fun c => c.id = inv_item.catalog_object_id)).map
    (fun catalog_item =>
      let velocity := calculate_velocity inv_item.catalog_object_id
        sales_history 30
      let current_stock := inv_item.quantity
      let max_stock : ℤ := 100
      let stock_percentage : ℚ :=
        fl64 (fl64 ((current_stock : ℚ) / (max_stock : ℚ)) * 100)
      let status := determine_status critical_threshold low_threshold
        stock_percentage current_stock
      let days_until_stockout :=
        if 0 < velocity then
          calculate_days_until_stockout current_stock velocity
        else none
      let suggested_reorder :=
        calculate_reorder_quantity velocity current_stock max_stock 7 7
      { product_id := inv_item.catalog_object_id,
        product_name := catalog_item.name,
        location_id := location_id,
        current_stock := current_stock,
        max_stock := max_stock,
        stock_percentage := stock_percentage,
        status := status,
        velocity := velocity,
        days_until_stockout := days_until_stockout,
        suggested_reorder_quantity := suggested_reorder })

/-- MonitorService.check_stock_levels with the external provider fetches
abstracted into the inventory, catalog and sales history arguments: the
loop accumulates one snapshot per inventory item that has a catalog
entry. -/
def check_stock_levels (critical_threshold low_threshold : ℚ)
    (location_id : String) (inventory : List InvItem)
    (catalog : List CatalogItem) (sales_history : List SalesOrder) :
    List StockSnapshot :=
  inventory.foldl
    (fun results inv_item =>
      results ++ (processInvItem critical_threshold low_threshold
        location_id catalog sales_history inv_item).toList)
    []

/-- The stock-classification step of check_stock_levels (the percentage
division and the status call), generalized over the max_stock value that
the source fixes to the literal 100. The only failure Python could raise
here is ZeroDivisionError on a zero divisor, modelled as none; the
repository defines no InvalidConfiguration error and performs no guard on
max_stock. -/
def classifyStep (critical_threshold low_threshold : ℚ)
    (current_stock max_stock : ℤ) : Option (ℚ × String) :=
  if max_stock = 0 then none
  else
    let stock_percentage : ℚ :=
      ((current_stock : ℚ) / (max_stock : ℚ)) * 100
    some (stock_percentage,
      determine_status critical_threshold low_threshold stock_percentage
        current_stock)

/-- A fold that appends the optional output for each element equals the
initial accumulator followed by filterMap. -/
theorem foldl_append_toList {α β : Type} (f : α → Option β) :
    ∀ (l : List α) (init : List β),
      l.foldl (fun acc x => acc ++ (f x).toList) init =
        init ++ l.filterMap f := by
  intro l
  induction l with
  | nil => intro init; simp
  | cons a t ih =>
    intro init
    simp only [List.foldl_cons, List.filterMap_cons]
    cases h : f a with
    | none => simpa [h] using ih init
    | some b => simp [h, ih (init ++ [b])]

/-- The alert list is the filterMap of the per-snapshot rule chain. -/
theorem generate_alerts_eq_filterMap (ct lt : ℚ)
    (stock_levels : List StockSnapshot) :
    generate_alerts ct lt stock_levels =
      stock_levels.filterMap (snapshotAlert ct lt) := by
  simpa using foldl_append_toList (snapshotAlert ct lt) stock_levels []

/-- The snapshot list is the filterMap of the per-item processing. -/
theorem check_stock_levels_eq_filterMap (ct lt : ℚ) (loc : String)
    (inventory : List InvItem) (catalog : List CatalogItem)
    (sales_history : List SalesOrder) :
    check_stock_levels ct lt loc inventory catalog sales_history =
      inventory.filterMap (processInvItem ct lt loc catalog sales_history) := by
  simpa using foldl_append_toList
    (processInvItem ct lt loc catalog sales_history) inventory []

/-- Truncation toward zero agrees with the floor on nonnegative input. -/
theorem pyInt_of_nonneg {q : ℚ} (h : 0 ≤ q) : pyInt q = ⌊q⌋ := by
  simp [pyInt, not_lt.mpr h]

/-- Truncation toward zero of an integer is that integer. -/
theorem pyInt_intCast (n : ℤ) : pyInt (n : ℚ) = n := by
  rcases lt_or_le (n : ℚ) 0 with h | h
  · simp [pyInt, h]
  · simp [pyInt, not_lt.mpr h]

/-- Bounds for the round-up-by-floor-division pattern of the reorder
calculator: for a positive granularity k, the value k * floor((r + (k-1))
/ k) lies between the floor of r and the floor of r plus k - 1. -/
theorem mul_floor_div_bounds (r : ℚ) (k : ℤ) (hk : 0 < k) :
    ⌊r⌋ ≤ k * ⌊(r + ((k : ℚ) - 1)) / (k : ℚ)⌋ ∧
      k * ⌊(r + ((k : ℚ) - 1)) / (k : ℚ)⌋ ≤ ⌊r⌋ + (k - 1) := by
  have hkq : (0 : ℚ) < (k : ℚ) := by exact_mod_cast hk
  set z : ℤ := ⌊(r + ((k : ℚ) - 1)) / (k : ℚ)⌋ with hz
  have h1 : (z : ℚ) ≤ (r + ((k : ℚ) - 1)) / (k : ℚ) := Int.floor_le _
  have h2 : (r + ((k : ℚ) - 1)) / (k : ℚ) < z + 1 := Int.lt_floor_add_one _
  have h1' : (z : ℚ) * (k : ℚ) ≤ r + ((k : ℚ) - 1) := by
    rwa [← le_div_iff₀ hkq]
  have h2' : r + ((k : ℚ) - 1) < ((z : ℚ) + 1) * (k : ℚ) := by
    rwa [← div_lt_iff₀ hkq]
  constructor
  · have hr : r < (k * z + 1 : ℤ) := by
      push_cast
      nlinarith
    have := Int.floor_lt.mpr hr
    omega
  · have hle : ((k * z : ℤ) : ℚ) ≤ r + (((k - 1 : ℤ)) : ℚ) := by
      push_cast
      nlinarith
    have : (k * z : ℤ) ≤ ⌊r + (((k - 1 : ℤ)) : ℚ)⌋ := Int.le_floor.mpr hle
    rw [Int.floor_add_int] at this
    omega

/-- The inner loop of calculate_velocity adds exactly the matched
quantities of one order to the accumulator. -/
theorem lineItems_foldl_eq (pid : String) :
    ∀ (items : List LineItem) (init : ℚ),
      items.foldl
        (fun a li => if li.catalog_object_id = pid then a + li.quantity else a)
        init =
      init + ((items.filter (fun li => li.catalog_object_id = pid)).map
        (fun li => li.quantity)).sum := by
  intro items
  induction items with
  | nil => intro init; simp
  | cons li t ih =>
    intro init
    by_cases h : li.catalog_object_id = pid
    · simp [List.foldl_cons, List.filter_cons, h, ih, add_assoc]
    · simp [List.foldl_cons, List.filter_cons, h, ih]

/-- The double loop of calculate_velocity computes the matched total of
the whole history. -/
theorem total_units_eq (pid : String) :
    ∀ (hist : List SalesOrder) (init : ℚ),
      hist.foldl
        (fun acc order => order.line_items.foldl
          (fun a li => if li.catalog_object_id = pid then a + li.quantity else a)
          acc)
        init =
      init + productUnits pid hist := by
  intro hist
  induction hist with
  | nil => intro init; simp [productUnits]
  | cons o t ih =>
    intro init
    simp only [List.foldl_cons, lineItems_foldl_eq pid o.line_items, ih,
      productUnits, List.map_cons, List.sum_cons]
    ring

/-- C7: calculate_velocity returns 0 when the window is not positive, and
otherwise returns the sum of the quantities of all line items of the full
supplied history whose product identifier matches, divided by the window
and rounded to two decimal places; two records with quantities 5 and 3 and
a window of 2 days yield 4.0. -/
theorem C7_velocity_spec (product_id : String)
    (sales_history : List SalesOrder) (days : ℤ) :
    (days ≤ 0 → calculate_velocity product_id sales_history days = 0) ∧
    (0 < days → calculate_velocity product_id sales_history days =
      round2 (productUnits product_id sales_history / (days : ℚ))) ∧
    calculate_velocity "p" [⟨[⟨"p", 5⟩]⟩, ⟨[⟨"p", 3⟩]⟩] 2 = 4 := by
  refine ⟨?_, ?_, ?_⟩
  · intro h
    simp only [calculate_velocity, if_neg (not_lt.mpr h)]
    norm_num [round2, roundHalfEven]
  · intro h
    simp only [calculate_velocity, total_units_eq, if_pos h, zero_add]
  · norm_num [calculate_velocity, round2, roundHalfEven]

/-- Witness for C7 at a concrete history: a non-positive window returns 0
and a window of 2 days returns the rounded quotient. -/
theorem C7_witness :
    calculate_velocity "p" [⟨[⟨"p", 5⟩]⟩, ⟨[⟨"p", 3⟩]⟩] (-3) = 0 ∧
    calculate_velocity "p" [⟨[⟨"p", 5⟩]⟩, ⟨[⟨"p", 3⟩]⟩] 2 =
      round2 (productUnits "p" [⟨[⟨"p", 5⟩]⟩, ⟨[⟨"p", 3⟩]⟩] / (2 : ℚ)) :=
  ⟨(C7_velocity_spec "p" [⟨[⟨"p", 5⟩]⟩, ⟨[⟨"p", 3⟩]⟩] (-3)).1 (by norm_num),
   (C7_velocity_spec "p" [⟨[⟨"p", 5⟩]⟩, ⟨[⟨"p", 3⟩]⟩] 2).2.1 (by norm_num)⟩

/-- C8: with nonnegative current stock, calculate_days_until_stockout is
absent exactly when the velocity is not positive, and otherwise is the
floor of current stock over velocity; 20 units at velocity 5 gives 4
days. -/
theorem C8_days_until_stockout (current_stock : ℤ) (velocity : ℚ)
    (hc : 0 ≤ current_stock) :
    (calculate_days_until_stockout current_stock velocity = none ↔
      velocity ≤ 0) ∧
    (0 < velocity → calculate_days_until_stockout current_stock velocity =
      some ⌊(current_stock : ℚ) / velocity⌋) ∧
    calculate_days_until_stockout 20 5 = some 4 := by
  refine ⟨?_, ?_, ?_⟩
  · by_cases h : velocity ≤ 0 <;> simp [calculate_days_until_stockout, h]
  · intro h
    have hnn : (0 : ℚ) ≤ (current_stock : ℚ) / velocity :=
      div_nonneg (by exact_mod_cast hc) h.le
    simp [calculate_days_until_stockout, not_le.mpr h, pyInt_of_nonneg hnn]
  · norm_num [calculate_days_until_stockout, pyInt]

/-- Witness for C8: the concrete projection of 20 units at velocity 5 is
4 days, and velocity 0 gives no projection. -/
theorem C8_witness :
    calculate_days_until_stockout 20 5 = some 4 ∧
    calculate_days_until_stockout 20 0 = none :=
  ⟨(C8_days_until_stockout 20 5 (by norm_num)).2.2,
   (C8_days_until_stockout 20 0 (by norm_num)).1.mpr le_rfl⟩

/-- Truncation toward zero of a non-positive rational is non-positive. -/
theorem pyInt_nonpos {q : ℚ} (h : q ≤ 0) : pyInt q ≤ 0 := by
  unfold pyInt
  split_ifs with h'
  · exact Int.ceil_le.mpr (by exact_mod_cast h)
  · have h0 : q = 0 := le_antisymm h (not_lt.mp h')
    simp [h0]

/-- Case analysis of calculate_reorder_quantity for positive velocity in
terms of the clamped quantity q, the minimum of the raw quantity and the
headroom max_stock minus current_stock: a non-positive q gives 0, a
positive q up to 20 gives the floor-division round to a multiple of 5,
and a larger q the round to a multiple of 10. -/
theorem reorder_quantity_cases (velocity : ℚ) (c m lead safety : ℤ)
    (hv : 0 < velocity) (q : ℚ)
    (hq : q = min (velocity * ((lead + safety : ℤ) : ℚ) - (c : ℚ))
      ((m : ℚ) - (c : ℚ))) :
    (q ≤ 0 → calculate_reorder_quantity velocity c m lead safety = 0) ∧
    (0 < q → q ≤ 20 →
      calculate_reorder_quantity velocity c m lead safety =
        5 * ⌊(q + 4) / 5⌋) ∧
    (20 < q →
      calculate_reorder_quantity velocity c m lead safety =
        10 * ⌊(q + 9) / 10⌋) := by
  have hv' : ¬ velocity ≤ 0 := not_le.mpr hv
  have key : calculate_reorder_quantity velocity c m lead safety =
      max 0 (pyInt (if 0 < q then
        (if q ≤ 20 then (⌊(q + 4) / 5⌋ : ℚ) * 5
         else (⌊(q + 9) / 10⌋ : ℚ) * 10)
      else q)) := by
    by_cases hclamp : (m : ℚ) <
        (c : ℚ) + (velocity * ((lead + safety : ℤ) : ℚ) - (c : ℚ))
    · have hq' : q = (m : ℚ) - (c : ℚ) := by
        rw [hq, min_eq_right]
        linarith
      simp only [calculate_reorder_quantity, if_neg hv', if_pos hclamp]
      rw [← hq']
    · have hq' : q = velocity * ((lead + safety : ℤ) : ℚ) - (c : ℚ) := by
        rw [hq, min_eq_left]
        linarith [not_lt.mp hclamp]
      simp only [calculate_reorder_quantity, if_neg hv', if_neg hclamp]
      rw [← hq']
  refine ⟨?_, ?_, ?_⟩
  · intro h
    rw [key, if_neg (not_lt.mpr h), max_eq_left (pyInt_nonpos h)]
  · intro h0 h20
    rw [key, if_pos h0, if_pos h20]
    have hcast : (⌊(q + 4) / 5⌋ : ℚ) * 5 = ((⌊(q + 4) / 5⌋ * 5 : ℤ) : ℚ) := by
      push_cast
      ring
    rw [hcast, pyInt_intCast]
    have hz : 0 ≤ ⌊(q + 4) / 5⌋ :=
      Int.floor_nonneg.mpr (div_nonneg (by linarith) (by norm_num))
    rw [max_eq_right (by nlinarith)]
    ring
  · intro h20
    have h0 : 0 < q := by linarith
    rw [key, if_pos h0, if_neg (not_le.mpr h20)]
    have hcast : (⌊(q + 9) / 10⌋ : ℚ) * 10 =
        ((⌊(q + 9) / 10⌋ * 10 : ℤ) : ℚ) := by
      push_cast
      ring
    rw [hcast, pyInt_intCast]
    have hz : 0 ≤ ⌊(q + 9) / 10⌋ :=
      Int.floor_nonneg.mpr (div_nonneg (by linarith) (by norm_num))
    rw [max_eq_right (by nlinarith)]
    ring

/-- Counterexample to C1: at velocity 10, current stock 92, max stock 100
and the default 7 plus 7 days, all valid inputs, the clamp leaves 8 but
the subsequent round-up returns 10, and 92 plus 10 exceeds the max stock
of 100. -/
theorem C1_counterexample :
    calculate_reorder_quantity 10 92 100 7 7 = 10 ∧
    100 < calculate_reorder_quantity 10 92 100 7 7 + 92 := by
  constructor <;> norm_num [calculate_reorder_quantity, pyInt]

/-- Amended C1: for valid inputs the returned quantity plus current stock
never exceeds max_stock + 9; the clamp runs before the round-up, so
rounding can push the total past max_stock by at most 4 when the clamped
quantity is at most 20 and at most 9 otherwise. -/
theorem C1_amended_capacity_bound (velocity : ℚ)
    (current_stock max_stock lead_time_days safety_stock_days : ℤ)
    (h0 : 0 ≤ current_stock) (h1 : current_stock ≤ max_stock)
    (h2 : 0 ≤ lead_time_days) (h3 : 0 ≤ safety_stock_days) :
    calculate_reorder_quantity velocity current_stock max_stock
      lead_time_days safety_stock_days + current_stock ≤ max_stock + 9 := by
  by_cases hv : velocity ≤ 0
  · simp only [calculate_reorder_quantity, if_pos hv]
    omega
  · have hv' : 0 < velocity := not_le.mp hv
    set q : ℚ := min
      (velocity * ((lead_time_days + safety_stock_days : ℤ) : ℚ) -
        (current_stock : ℚ))
      ((max_stock : ℚ) - (current_stock : ℚ)) with hqdef
    obtain ⟨hcase0, hcase5, hcase10⟩ := reorder_quantity_cases velocity
      current_stock max_stock lead_time_days safety_stock_days hv' q hqdef
    have hqm : q ≤ ((max_stock - current_stock : ℤ) : ℚ) := by
      rw [hqdef]
      push_cast
      exact min_le_right _ _
    have hfloor : ⌊q⌋ ≤ max_stock - current_stock := by
      have := Int.floor_le_floor hqm
      simpa using this
    rcases le_or_lt q 0 with hq0 | hq0
    · rw [hcase0 hq0]
      omega
    rcases le_or_lt q 20 with hq20 | hq20
    · rw [hcase5 hq0 hq20]
      have hb := mul_floor_div_bounds q 5 (by norm_num)
      norm_num at hb
      omega
    · rw [hcase10 hq20]
      have hb := mul_floor_div_bounds q 10 (by norm_num)
      norm_num at hb
      omega

/-- Witness for the amended C1 at the concrete input of the test suite. -/
theorem C1_witness :
    calculate_reorder_quantity 5 10 100 7 7 + 10 ≤ 109 :=
  C1_amended_capacity_bound 5 10 100 7 7 (by norm_num) (by norm_num)
    (by norm_num) (by norm_num)

/-- Counterexample to C2: at velocity 3/4 the clamped quantity q is 11/2,
positive and at most 20, yet the function returns 5, which is below q:
the code takes the ceiling to a multiple of 5 of the floor of q, not of q
itself. -/
theorem C2_counterexample :
    (0 : ℚ) < min ((3 / 4 : ℚ) * ((7 + 7 : ℤ) : ℚ) - (5 : ℚ))
      ((100 : ℚ) - (5 : ℚ)) ∧
    min ((3 / 4 : ℚ) * ((7 + 7 : ℤ) : ℚ) - (5 : ℚ))
      ((100 : ℚ) - (5 : ℚ)) ≤ 20 ∧
    ((calculate_reorder_quantity (3 / 4) 5 100 7 7 : ℤ) : ℚ) <
      min ((3 / 4 : ℚ) * ((7 + 7 : ℤ) : ℚ) - (5 : ℚ))
        ((100 : ℚ) - (5 : ℚ)) := by
  norm_num [calculate_reorder_quantity, pyInt]

/-- Amended C2: for positive velocity and positive clamped quantity q,
the function returns the least multiple of 5 that is at least the floor
of q when q is at most 20, and the least multiple of 10 at least the
floor of q otherwise; for integer q this is the least multiple at least q
itself, but for fractional q the result can be below q by less than
one. -/
theorem C2_amended_round_up_floor (velocity : ℚ)
    (current_stock max_stock lead_time_days safety_stock_days : ℤ) (q : ℚ)
    (hq : q = min
      (velocity * ((lead_time_days + safety_stock_days : ℤ) : ℚ) -
        (current_stock : ℚ))
      ((max_stock : ℚ) - (current_stock : ℚ)))
    (hv : 0 < velocity) (hpos : 0 < q) :
    (q ≤ 20 →
      5 ∣ calculate_reorder_quantity velocity current_stock max_stock
        lead_time_days safety_stock_days ∧
      ⌊q⌋ ≤ calculate_reorder_quantity velocity current_stock max_stock
        lead_time_days safety_stock_days ∧
      calculate_reorder_quantity velocity current_stock max_stock
        lead_time_days safety_stock_days < ⌊q⌋ + 5) ∧
    (20 < q →
      10 ∣ calculate_reorder_quantity velocity current_stock max_stock
        lead_time_days safety_stock_days ∧
      ⌊q⌋ ≤ calculate_reorder_quantity velocity current_stock max_stock
        lead_time_days safety_stock_days ∧
      calculate_reorder_quantity velocity current_stock max_stock
        lead_time_days safety_stock_days < ⌊q⌋ + 10) := by
  obtain ⟨hcase0, hcase5, hcase10⟩ := reorder_quantity_cases velocity
    current_stock max_stock lead_time_days safety_stock_days hv q hq
  constructor
  · intro h20
    rw [hcase5 hpos h20]
    have hb := mul_floor_div_bounds q 5 (by norm_num)
    norm_num at hb
    exact ⟨dvd_mul_right 5 _, by omega, by omega⟩
  · intro h20
    rw [hcase10 h20]
    have hb := mul_floor_div_bounds q 10 (by norm_num)
    norm_num at hb
    exact ⟨dvd_mul_right 10 _, by omega, by omega⟩

/-- Witness for the amended C2 at the concrete input of the test suite,
where the clamped quantity is 60. -/
theorem C2_witness :
    10 ∣ calculate_reorder_quantity 5 10 100 7 7 ∧
    ⌊(60 : ℚ)⌋ ≤ calculate_reorder_quantity 5 10 100 7 7 ∧
    calculate_reorder_quantity 5 10 100 7 7 < ⌊(60 : ℚ)⌋ + 10 :=
  (C2_amended_round_up_floor 5 10 100 7 7 60 (by norm_num) (by norm_num)
    (by norm_num)).2 (by norm_num)

/-- Counterexample to C3: a snapshot with positive stock, percentage 50
above both thresholds 5 and 20, days_until_stockout defined and equal to
0, hence at most 7, and a positive suggested reorder quantity receives no
alert at all: the Python truthiness test on days_until_stockout rejects
the value 0. -/
theorem C3_counterexample :
    (0 : ℤ) < 50 ∧ (5 : ℚ) < 50 ∧ (20 : ℚ) < 50 ∧ (0 : ℤ) ≤ 7 ∧
    (0 : ℤ) < 10 ∧
    generate_alerts 5 20
      [⟨"x", "X", "l", 50, 100, 50, "healthy", 0, some 0, 10⟩] = [] := by
  refine ⟨by norm_num, by norm_num, by norm_num, by norm_num, by norm_num, ?_⟩
  decide

/-- Amended C3: the reorder_suggested alert with severity info is emitted
for a snapshot with positive stock, percentage above both thresholds,
days_until_stockout defined, nonzero and at most 7, and positive
suggested reorder quantity; the nonzero condition is forced by the
truthiness test in the code. -/
theorem C3_amended_reorder_alert (ct lt : ℚ) (s : StockSnapshot) (d : ℤ)
    (h0 : 0 < s.current_stock) (h1 : ct < s.stock_percentage)
    (h2 : lt < s.stock_percentage) (hd : s.days_until_stockout = some d)
    (hd0 : d ≠ 0) (hd7 : d ≤ 7)
    (hsrq : 0 < s.suggested_reorder_quantity) :
    ∃ a, snapshotAlert ct lt s = some a ∧
      a.alert_type = AlertType.reorder_suggested ∧
      a.severity = AlertSeverity.info ∧
      ∀ snaps, s ∈ snaps → a ∈ generate_alerts ct lt snaps := by
  have hs0 : s.current_stock ≠ 0 := ne_of_gt h0
  have key : snapshotAlert ct lt s = some
      { product_id := s.product_id, location_id := s.location_id,
        alert_type := AlertType.reorder_suggested,
        severity := AlertSeverity.info,
        message := AlertMessage.reorderSuggested s.product_name d,
        current_stock := s.current_stock,
        suggested_action := some (SuggestedAction.reorderToOptimal
          s.suggested_reorder_quantity) } := by
    simp only [snapshotAlert, if_neg hs0, if_neg (not_le.mpr h1),
      if_neg (not_le.mpr h2), hd]
    rw [if_pos ⟨hd0, hd7, hsrq⟩]
  refine ⟨_, key, rfl, rfl, fun snaps hmem => ?_⟩
  rw [generate_alerts_eq_filterMap]
  exact List.mem_filterMap.mpr ⟨s, hmem, key⟩

/-- Witness for the amended C3 at a concrete snapshot with three days to
stockout. -/
theorem C3_witness :
    ∃ a, snapshotAlert 5 20
        ⟨"x", "X", "l", 50, 100, 50, "healthy", 0, some 3, 10⟩ = some a ∧
      a.alert_type = AlertType.reorder_suggested ∧
      a.severity = AlertSeverity.info ∧
      ∀ snaps,
        (⟨"x", "X", "l", 50, 100, 50, "healthy", 0, some 3, 10⟩ :
          StockSnapshot) ∈ snaps →
        a ∈ generate_alerts 5 20 snaps :=
  C3_amended_reorder_alert 5 20
    ⟨"x", "X", "l", 50, 100, 50, "healthy", 0, some 3, 10⟩ 3
    (by decide) (by decide) (by decide) rfl (by decide) (by decide)
    (by decide)

/-- C5: with critical threshold below low threshold, the status tier is
out_of_stock exactly on zero stock independent of percentage, otherwise
critical exactly when the percentage is at most the critical threshold,
otherwise low exactly when at most the low threshold, otherwise
healthy. -/
theorem C5_status_tiers (ct lt pct : ℚ) (cur : ℤ) (h : ct < lt) :
    (determine_status ct lt pct cur = "out_of_stock" ↔ cur = 0) ∧
    (cur ≠ 0 → (determine_status ct lt pct cur = "critical" ↔ pct ≤ ct)) ∧
    (cur ≠ 0 → ¬ pct ≤ ct →
      (determine_status ct lt pct cur = "low" ↔ pct ≤ lt)) ∧
    (cur ≠ 0 → ¬ pct ≤ ct → ¬ pct ≤ lt →
      determine_status ct lt pct cur = "healthy") := by
  unfold determine_status
  refine ⟨?_, ?_, ?_, ?_⟩
  · by_cases h1 : cur = 0
    · simp [h1]
    · rw [if_neg h1]
      simp only [h1, iff_false]
      split_ifs <;> decide
  · intro h0
    rw [if_neg h0]
    by_cases hc : pct ≤ ct
    · simp [hc]
    · rw [if_neg hc]
      simp only [hc, iff_false]
      split_ifs <;> decide
  · intro h0 h2
    rw [if_neg h0, if_neg h2]
    by_cases hl : pct ≤ lt
    · simp [hl]
    · rw [if_neg hl]
      simp only [hl, iff_false]
      decide
  · intro h0 h2 h3
    rw [if_neg h0, if_neg h2, if_neg h3]

/-- Witness for C5 at the concrete threshold and status values of the
test suite. -/
theorem C5_witness :
    (determine_status 5 20 0 0 = "out_of_stock" ↔ (0 : ℤ) = 0) ∧
    ((3 : ℤ) ≠ 0 → (determine_status 5 20 3 3 = "critical" ↔ (3 : ℚ) ≤ 5)) :=
  ⟨(C5_status_tiers 5 20 0 0 (by norm_num)).1,
   (C5_status_tiers 5 20 3 3 (by norm_num)).2.1⟩

/-- Counterexample to C6: invoked with the negative max_stock of -5, the
classification step computes the stock percentage -200 and the normal
status critical instead of failing: the repository defines no
InvalidConfiguration error and the code guards nothing. -/
theorem C6_counterexample :
    classifyStep 5 20 10 (-5) = some (-200, "critical") := by
  norm_num [classifyStep, determine_status]

/-- Amended C6: the classification step has no InvalidConfiguration
failure at all; for every nonzero max_stock, negative included, it
computes the percentage and a normal status, and the only failure mode is
the Python ZeroDivisionError at max_stock equal to 0. In the code the
divisor is the hard-coded constant 100, so even that is unreachable. -/
theorem C6_amended_no_guard (ct lt : ℚ) (cur m : ℤ) (hm : m ≠ 0) :
    classifyStep ct lt cur m =
      some (((cur : ℚ) / (m : ℚ)) * 100,
        determine_status ct lt (((cur : ℚ) / (m : ℚ)) * 100) cur) ∧
    classifyStep ct lt cur 0 = none := by
  constructor
  · simp [classifyStep, hm]
  · simp [classifyStep]

/-- Witness for the amended C6 at a negative max_stock. -/
theorem C6_witness :
    classifyStep 5 20 10 (-5) =
      some (((10 : ℚ) / ((-5 : ℤ) : ℚ)) * 100,
        determine_status 5 20 (((10 : ℚ) / ((-5 : ℤ) : ℚ)) * 100) 10) ∧
    classifyStep 5 20 10 0 = none :=
  C6_amended_no_guard 5 20 10 (-5) (by norm_num)

/-- C4: generate_alerts is the per-snapshot filterMap of the rule chain,
so it emits at most one alert per snapshot and in input order; the rule
chain follows the strict priority out_of_stock, critical_stock,
low_stock, possibly reorder_suggested, and a snapshot with nonzero stock,
percentage above both thresholds and no stockout projection receives no
alert. -/
theorem C4_at_most_one_priority (ct lt : ℚ) (snaps : List StockSnapshot) :
    generate_alerts ct lt snaps = snaps.filterMap (snapshotAlert ct lt) ∧
    (generate_alerts ct lt snaps).length ≤ snaps.length ∧
    (∀ s : StockSnapshot,
      (s.current_stock = 0 →
        ∃ a, snapshotAlert ct lt s = some a ∧
          a.alert_type = AlertType.out_of_stock) ∧
      (s.current_stock ≠ 0 → s.stock_percentage ≤ ct →
        ∃ a, snapshotAlert ct lt s = some a ∧
          a.alert_type = AlertType.critical_stock) ∧
      (s.current_stock ≠ 0 → ct < s.stock_percentage →
          s.stock_percentage ≤ lt →
        ∃ a, snapshotAlert ct lt s = some a ∧
          a.alert_type = AlertType.low_stock) ∧
      (s.current_stock ≠ 0 → ct < s.stock_percentage →
          lt < s.stock_percentage →
        snapshotAlert ct lt s = none ∨
          ∃ a, snapshotAlert ct lt s = some a ∧
            a.alert_type = AlertType.reorder_suggested) ∧
      (s.current_stock ≠ 0 → ct < s.stock_percentage →
          lt < s.stock_percentage → s.days_until_stockout = none →
        snapshotAlert ct lt s = none)) := by
  have hfm := generate_alerts_eq_filterMap ct lt snaps
  refine ⟨hfm, ?_, ?_⟩
  · rw [hfm]
    exact List.length_filterMap_le _ _
  · intro s
    refine ⟨?_, ?_, ?_, ?_, ?_⟩
    · intro h1
      exact ⟨_, by rw [snapshotAlert, if_pos h1], rfl⟩
    · intro h1 h2
      exact ⟨_, by rw [snapshotAlert, if_neg h1, if_pos h2], rfl⟩
    · intro h1 h2 h3
      exact ⟨_, by
        rw [snapshotAlert, if_neg h1, if_neg (not_le.mpr h2), if_pos h3], rfl⟩
    · intro h1 h2 h3
      have base : snapshotAlert ct lt s =
          match s.days_until_stockout with
          | none => none
          | some d =>
            if d ≠ 0 ∧ d ≤ 7 ∧ 0 < s.suggested_reorder_quantity then
              some { product_id := s.product_id, location_id := s.location_id,
                     alert_type := AlertType.reorder_suggested,
                     severity := AlertSeverity.info,
                     message := AlertMessage.reorderSuggested s.product_name d,
                     current_stock := s.current_stock,
                     suggested_action :=
                       some (SuggestedAction.reorderToOptimal
                         s.suggested_reorder_quantity) }
            else none := by
        rw [snapshotAlert, if_neg h1, if_neg (not_le.mpr h2),
          if_neg (not_le.mpr h3)]
      cases hd : s.days_until_stockout with
      | none =>
        left
        rw [base, hd]
      | some d =>
        by_cases hcond : d ≠ 0 ∧ d ≤ 7 ∧ 0 < s.suggested_reorder_quantity
        · right
          exact ⟨_, by rw [base, hd]; exact if_pos hcond, rfl⟩
        · left
          rw [base, hd]
          exact if_neg hcond
    · intro h1 h2 h3 hd
      rw [snapshotAlert, if_neg h1, if_neg (not_le.mpr h2),
        if_neg (not_le.mpr h3), hd]

/-- Witness for C4 at the healthy snapshot of the test suite: percentage
80 above both thresholds, no stockout projection, no alert emitted. -/
theorem C4_witness :
    generate_alerts 5 20
      [⟨"x", "X", "l", 80, 100, 80, "healthy", 0, none, 0⟩] = [] ∧
    (generate_alerts 5 20
      [⟨"x", "X", "l", 80, 100, 80, "healthy", 0, none, 0⟩]).length ≤ 1 := by
  obtain ⟨hfm, hlen, hrules⟩ := C4_at_most_one_priority 5 20
    [⟨"x", "X", "l", 80, 100, 80, "healthy", 0, none, 0⟩]
  have hnone := (hrules ⟨"x", "X", "l", 80, 100, 80, "healthy", 0, none, 0⟩).2.2.2.2
    (by decide) (by decide) (by decide) rfl
  constructor
  · rw [hfm]
    simp [hnone]
  · exact hlen

/-- C9: every alert produced by generate_alerts carries one of the four
stock alert types; the velocity_anomaly member of the enumeration is
never emitted. -/
theorem C9_no_velocity_anomaly (ct lt : ℚ) (snaps : List StockSnapshot)
    (a : AlertCreate) (ha : a ∈ generate_alerts ct lt snaps) :
    (a.alert_type = AlertType.out_of_stock ∨
     a.alert_type = AlertType.critical_stock ∨
     a.alert_type = AlertType.low_stock ∨
     a.alert_type = AlertType.reorder_suggested) ∧
    a.alert_type ≠ AlertType.velocity_anomaly := by
  rw [generate_alerts_eq_filterMap] at ha
  obtain ⟨s, hmem, hsa⟩ := List.mem_filterMap.mp ha
  rw [snapshotAlert] at hsa
  split_ifs at hsa with h1 h2 h3
  · obtain rfl := (Option.some_inj.mp hsa).symm
    exact ⟨Or.inl rfl, by simp⟩
  · obtain rfl := (Option.some_inj.mp hsa).symm
    exact ⟨Or.inr (Or.inl rfl), by simp⟩
  · obtain rfl := (Option.some_inj.mp hsa).symm
    exact ⟨Or.inr (Or.inr (Or.inl rfl)), by simp⟩
  · cases hd : s.days_until_stockout with
    | none =>
      rw [hd] at hsa
      cases hsa
    | some d =>
      rw [hd] at hsa
      dsimp only at hsa
      split_ifs at hsa with hcond
      obtain rfl := (Option.some_inj.mp hsa).symm
      exact ⟨Or.inr (Or.inr (Or.inr rfl)), by simp⟩

/-- Witness for C9 at a concrete out-of-stock snapshot and the alert it
produces. -/
theorem C9_witness :
    ((⟨"x", "l", AlertType.out_of_stock, AlertSeverity.critical,
        AlertMessage.outOfStock "X", 0,
        some (SuggestedAction.urgentReorder 0)⟩ :
      AlertCreate).alert_type = AlertType.out_of_stock ∨
     (⟨"x", "l", AlertType.out_of_stock, AlertSeverity.critical,
        AlertMessage.outOfStock "X", 0,
        some (SuggestedAction.urgentReorder 0)⟩ :
      AlertCreate).alert_type = AlertType.critical_stock ∨
     (⟨"x", "l", AlertType.out_of_stock, AlertSeverity.critical,
        AlertMessage.outOfStock "X", 0,
        some (SuggestedAction.urgentReorder 0)⟩ :
      AlertCreate).alert_type = AlertType.low_stock ∨
     (⟨"x", "l", AlertType.out_of_stock, AlertSeverity.critical,
        AlertMessage.outOfStock "X", 0,
        some (SuggestedAction.urgentReorder 0)⟩ :
      AlertCreate).alert_type = AlertType.reorder_suggested) ∧
    (⟨"x", "l", AlertType.out_of_stock, AlertSeverity.critical,
        AlertMessage.outOfStock "X", 0,
        some (SuggestedAction.urgentReorder 0)⟩ :
      AlertCreate).alert_type ≠ AlertType.velocity_anomaly :=
  C9_no_velocity_anomaly 5 20
    [⟨"x", "X", "l", 0, 100, 0, "out_of_stock", 0, none, 0⟩]
    ⟨"x", "l", AlertType.out_of_stock, AlertSeverity.critical,
      AlertMessage.outOfStock "X", 0,
      some (SuggestedAction.urgentReorder 0)⟩
    (by decide)


/-- Uniqueness characterization of the base-2 integer logarithm on
positive rationals. -/
theorem int_log2_eq {q : ℚ} {e : ℤ} (h0 : 0 < q) (hlo : (2:ℚ) ^ e ≤ q)
    (hhi : q < (2:ℚ) ^ (e + 1)) : Int.log 2 q = e := by
  have hb : 1 < (2:ℕ) := one_lt_two
  have h1 : e ≤ Int.log 2 q := by
    refine (Int.zpow_le_iff_le_log hb h0).mp ?_
    norm_num
    exact hlo
  have h2 : Int.log 2 q < e + 1 := by
    refine (Int.lt_zpow_iff_log_lt hb h0).mp ?_
    norm_num
    exact hhi
  omega

/-- Evaluation rule for fl64 with explicitly supplied exponent and
rounded significand. -/
theorem fl64_eval (q : ℚ) (e m : ℤ) (h0 : 0 < q) (hlo : (2:ℚ) ^ e ≤ q)
    (hhi : q < (2:ℚ) ^ (e + 1))
    (hm : roundHalfEven (q * 2 ^ (52 - e)) = m) :
    fl64 q = (m : ℚ) * 2 ^ (e - 52) := by
  have he : floatExp q = e := by
    rw [floatExp, abs_of_pos h0]
    exact int_log2_eq h0 hlo hhi
  rw [fl64, if_neg (ne_of_gt h0), he, hm]

/-- fl64 fixes zero. -/
theorem fl64_zero : fl64 0 = 0 := by simp [fl64]

/-- Half-even rounding moves a rational by at most one half. -/
theorem roundHalfEven_err (q : ℚ) : |(roundHalfEven q : ℚ) - q| ≤ 1 / 2 := by
  have h1 : (⌊q⌋ : ℚ) ≤ q := Int.floor_le q
  have h2 : q < ⌊q⌋ + 1 := Int.lt_floor_add_one q
  unfold roundHalfEven
  split_ifs with hf1 hf2 hf3 <;> rw [abs_le] <;> constructor <;> push_cast <;>
    linarith

/-- Relative error of one binary64 rounding: at most 2 pow -53 of the
magnitude. -/
theorem fl64_error (x : ℚ) : |fl64 x - x| ≤ |x| * (2:ℚ) ^ (-53 : ℤ) := by
  by_cases hx : x = 0
  · simp [hx, fl64_zero]
  · have hxpos : 0 < |x| := abs_pos.mpr hx
    set e : ℤ := floatExp x with he
    have h2e : (2:ℚ) ^ e ≤ |x| := by
      have hb : 1 < (2:ℕ) := one_lt_two
      have h := Int.zpow_log_le_self (R := ℚ) hb hxpos
      rw [he, floatExp]
      norm_num at h
      exact h
    have htwo : (2:ℚ) ≠ 0 := by norm_num
    have hval : fl64 x = (roundHalfEven (x * 2 ^ (52 - e)) : ℚ) * 2 ^ (e - 52) := by
      rw [fl64, if_neg hx, ← he]
    have hsame : (2:ℚ) ^ (52 - e) * 2 ^ (e - 52) = 1 := by
      rw [← zpow_add₀ htwo]
      norm_num
    have hdecomp : fl64 x - x =
        ((roundHalfEven (x * 2 ^ (52 - e)) : ℚ) - x * 2 ^ (52 - e)) *
          2 ^ (e - 52) := by
      calc fl64 x - x
          = (roundHalfEven (x * 2 ^ (52 - e)) : ℚ) * 2 ^ (e - 52) -
              x * ((2:ℚ) ^ (52 - e) * 2 ^ (e - 52)) := by
            rw [hval, hsame, mul_one]
        _ = ((roundHalfEven (x * 2 ^ (52 - e)) : ℚ) - x * 2 ^ (52 - e)) *
              2 ^ (e - 52) := by ring
    have hppos : (0:ℚ) < 2 ^ (e - 52) := zpow_pos (by norm_num) _
    rw [hdecomp, abs_mul, abs_of_pos hppos]
    have herr := roundHalfEven_err (x * 2 ^ (52 - e))
    have hb1 : |(roundHalfEven (x * 2 ^ (52 - e)) : ℚ) - x * 2 ^ (52 - e)| *
        2 ^ (e - 52) ≤ (1 / 2) * 2 ^ (e - 52) :=
      mul_le_mul_of_nonneg_right herr hppos.le
    refine hb1.trans ?_
    have hb2 : (1 / 2 : ℚ) * 2 ^ (e - 52) = 2 ^ (e - 53 : ℤ) := by
      rw [show (e - 53 : ℤ) = -1 + (e - 52) by ring, zpow_add₀ htwo]
      norm_num
    have hb3 : (2:ℚ) ^ (e - 53 : ℤ) = 2 ^ e * 2 ^ (-53 : ℤ) := by
      rw [show (e - 53 : ℤ) = e + (-53) by ring, zpow_add₀ htwo]
    rw [hb2, hb3]
    exact mul_le_mul_of_nonneg_right h2e (zpow_pos (a := (2:ℚ)) (by norm_num)
      (-53 : ℤ)).le

/-- Error of the percentage roundtrip (c / 100) * 100 computed in
binary64: at most 2 pow -51 of the magnitude of c. -/
theorem pct_roundtrip_error (c : ℚ) :
    |fl64 (fl64 (c / 100) * 100) - c| ≤ |c| * (2:ℚ) ^ (-51 : ℤ) := by
  have ht0 : (0:ℚ) < (2:ℚ) ^ (-53 : ℤ) := zpow_pos (by norm_num) _
  have ht1 : (2:ℚ) ^ (-53 : ℤ) ≤ 1 := by norm_num
  have h51 : (2:ℚ) ^ (-51 : ℤ) = 4 * (2:ℚ) ^ (-53 : ℤ) := by norm_num
  have e1 := fl64_error (c / 100)
  have e2 := fl64_error (fl64 (c / 100) * 100)
  set t : ℚ := (2:ℚ) ^ (-53 : ℤ)
  set y : ℚ := fl64 (c / 100) with hy
  set z : ℚ := fl64 (y * 100) with hz
  have habs100 : |c / 100| = |c| / 100 := by
    rw [abs_div]
    norm_num
  have habsy : |y| ≤ |c| / 100 * (1 + t) := by
    have hd := abs_sub_abs_le_abs_sub y (c / 100)
    rw [habs100] at e1
    linarith [abs_nonneg (y - c / 100)]
  have habsy100 : |y * 100| = |y| * 100 := by
    rw [abs_mul]
    norm_num
  have htri : |z - c| ≤ |z - y * 100| + |y * 100 - c| := abs_sub_le z (y * 100) c
  have hmid : |y * 100 - c| = 100 * |y - c / 100| := by
    rw [show y * 100 - c = 100 * (y - c / 100) by ring, abs_mul]
    norm_num
  have hA : (0:ℚ) ≤ |c| := abs_nonneg c
  rw [habs100] at e1
  rw [habsy100] at e2
  calc |z - c| ≤ |z - y * 100| + |y * 100 - c| := htri
    _ ≤ |y| * 100 * t + 100 * (|c| / 100 * t) := by
        rw [hmid]
        exact add_le_add e2 (by nlinarith)
    _ ≤ (|c| / 100 * (1 + t)) * 100 * t + 100 * (|c| / 100 * t) := by nlinarith
    _ = |c| * (t * (2 + t)) := by ring
    _ ≤ |c| * (4 * t) := by
        have hstep : t * (2 + t) ≤ 4 * t := by
          nlinarith [mul_nonneg ht0.le (by linarith : (0:ℚ) ≤ 2 - t)]
        exact mul_le_mul_of_nonneg_left hstep hA
    _ = |c| * (2:ℚ) ^ (-51 : ℤ) := by rw [h51]

/-- Counterexample to C10: a snapshot built by check_stock_levels from an
inventory count of 7 has stock_percentage 7 + 2 pow -50, the binary64
value of (7 / 100) * 100, which is not numerically equal to its
current_stock of 7: the division 7 / 100 rounds up to the double
5044031582654956 * 2 pow -56 and the multiplication by 100 lands 0.75
ulp above 7 and rounds up again. -/
theorem C10_counterexample :
    check_stock_levels 5 20 "loc" [⟨"p1", 7⟩] [⟨"p1", "P"⟩] [] =
      [⟨"p1", "P", "loc", 7, 100, 7 + (2:ℚ) ^ (-50 : ℤ), "low", 0, none, 0⟩] ∧
    (7:ℚ) + (2:ℚ) ^ (-50 : ℤ) ≠ ((7 : ℤ) : ℚ) := by
  have hc7 : (((7:ℤ) : ℚ) / ((100:ℤ) : ℚ)) = 7 / 100 := by norm_num
  have ha : fl64 ((7:ℚ) / 100) = 5044031582654956 * (2:ℚ) ^ ((-56) : ℤ) := by
    have h := fl64_eval ((7:ℚ) / 100) (-4) 5044031582654956 (by norm_num)
      (by norm_num) (by norm_num) (by norm_num [roundHalfEven])
    rw [h]
    norm_num
  have hb : fl64 ((5044031582654956 * (2:ℚ) ^ ((-56) : ℤ)) * 100) =
      7 + (2:ℚ) ^ ((-50) : ℤ) := by
    have h := fl64_eval ((5044031582654956 * (2:ℚ) ^ ((-56) : ℤ)) * 100) 2
      7881299347898369 (by norm_num) (by norm_num) (by norm_num)
      (by norm_num [roundHalfEven])
    rw [h]
    norm_num
  have hpct : fl64 (fl64 (((7:ℤ) : ℚ) / ((100:ℤ) : ℚ)) * 100) =
      7 + (2:ℚ) ^ ((-50) : ℤ) := by
    rw [hc7, ha, hb]
  have hv : calculate_velocity "p1" [] 30 = 0 := by
    norm_num [calculate_velocity, round2, roundHalfEven]
  refine ⟨?_, by norm_num⟩
  rw [check_stock_levels_eq_filterMap]
  have hpi : processInvItem 5 20 "loc" [⟨"p1", "P"⟩] [] ⟨"p1", 7⟩ =
      some ⟨"p1", "P", "loc", 7, 100, 7 + (2:ℚ) ^ (-50 : ℤ), "low", 0,
        none, 0⟩ := by
    rw [processInvItem]
    rw [show List.find?
        (fun c => c.id = (⟨"p1", 7⟩ : InvItem).catalog_object_id)
        [(⟨"p1", "P"⟩ : CatalogItem)] = some ⟨"p1", "P"⟩ from rfl]
    rw [Option.map_some']
    dsimp only
    rw [hv, hpct]
    norm_num [determine_status, calculate_reorder_quantity]
  simp [hpi]

/-- Amended C10: every snapshot produced by check_stock_levels carries
the hard-coded max_stock of 100, regardless of product, location, catalog
or sales data, and its stock_percentage is the binary64 roundtrip
(current_stock / 100) * 100 of its current_stock, which can differ from
current_stock by float rounding, though by at most 2 pow -51 of its
magnitude; no per-product capacity is read from any input. -/
theorem C10_amended_float_pct (ct lt : ℚ) (loc : String)
    (inventory : List InvItem) (catalog : List CatalogItem)
    (sales_history : List SalesOrder) (s : StockSnapshot)
    (hs : s ∈ check_stock_levels ct lt loc inventory catalog sales_history) :
    s.max_stock = 100 ∧
    s.stock_percentage = fl64 (fl64 ((s.current_stock : ℚ) / 100) * 100) ∧
    |s.stock_percentage - (s.current_stock : ℚ)| ≤
      |(s.current_stock : ℚ)| * (2:ℚ) ^ (-51 : ℤ) := by
  rw [check_stock_levels_eq_filterMap] at hs
  obtain ⟨item, hmem, hp⟩ := List.mem_filterMap.mp hs
  rw [processInvItem] at hp
  obtain ⟨citem, hfind, hmk⟩ := Option.map_eq_some'.mp hp
  subst hmk
  have hcast : ((item.quantity : ℚ) / ((100:ℤ) : ℚ)) =
      (item.quantity : ℚ) / 100 := by
    norm_num
  refine ⟨rfl, ?_, ?_⟩
  · show fl64 (fl64 ((item.quantity : ℚ) / ((100:ℤ) : ℚ)) * 100) =
      fl64 (fl64 ((item.quantity : ℚ) / 100) * 100)
    rw [hcast]
  · show |fl64 (fl64 ((item.quantity : ℚ) / ((100:ℤ) : ℚ)) * 100) -
        (item.quantity : ℚ)| ≤ |(item.quantity : ℚ)| * (2:ℚ) ^ (-51 : ℤ)
    rw [hcast]
    exact pct_roundtrip_error (item.quantity : ℚ)

/-- Witness for the amended C10 on an inventory count of 25, whose
quotient by 100 is exactly representable, so the roundtrip percentage is
exactly 25. -/
theorem C10_witness_float :
    (⟨"p1", "P", "loc", 25, 100, 25, "healthy", 0, none, 0⟩ :
      StockSnapshot).max_stock = 100 ∧
    (⟨"p1", "P", "loc", 25, 100, 25, "healthy", 0, none, 0⟩ :
      StockSnapshot).stock_percentage =
      fl64 (fl64 (((⟨"p1", "P", "loc", 25, 100, 25, "healthy", 0, none, 0⟩ :
        StockSnapshot).current_stock : ℚ) / 100) * 100) ∧
    |(⟨"p1", "P", "loc", 25, 100, 25, "healthy", 0, none, 0⟩ :
      StockSnapshot).stock_percentage -
        ((⟨"p1", "P", "loc", 25, 100, 25, "healthy", 0, none, 0⟩ :
          StockSnapshot).current_stock : ℚ)| ≤
      |((⟨"p1", "P", "loc", 25, 100, 25, "healthy", 0, none, 0⟩ :
        StockSnapshot).current_stock : ℚ)| * (2:ℚ) ^ (-51 : ℤ) :=
  C10_amended_float_pct 5 20 "loc" [⟨"p1", 25⟩] [⟨"p1", "P"⟩] []
    ⟨"p1", "P", "loc", 25, 100, 25, "healthy", 0, none, 0⟩
    (by
      have h25 : (((25:ℤ) : ℚ) / ((100:ℤ) : ℚ)) = 1 / 4 := by norm_num
      have hqa : fl64 ((1:ℚ) / 4) = 1 / 4 := by
        have h := fl64_eval ((1:ℚ) / 4) (-2) 4503599627370496 (by norm_num)
          (by norm_num) (by norm_num) (by norm_num [roundHalfEven])
        rw [h]
        norm_num
      have hmul : ((1:ℚ) / 4) * 100 = 25 := by norm_num
      have hqb : fl64 ((1:ℚ) / 4 * 100) = 25 := by
        rw [hmul]
        have h := fl64_eval (25:ℚ) 4 7036874417766400 (by norm_num)
          (by norm_num) (by norm_num) (by norm_num [roundHalfEven])
        rw [h]
        norm_num
      have hpct : fl64 (fl64 (((25:ℤ) : ℚ) / ((100:ℤ) : ℚ)) * 100) = 25 := by
        rw [h25, hqa, hqb]
      have hv : calculate_velocity "p1" [] 30 = 0 := by
        norm_num [calculate_velocity, round2, roundHalfEven]
      have hpi : processInvItem 5 20 "loc" [⟨"p1", "P"⟩] [] ⟨"p1", 25⟩ =
          some ⟨"p1", "P", "loc", 25, 100, 25, "healthy", 0, none, 0⟩ := by
        rw [processInvItem]
        rw [show List.find?
            (fun c => c.id = (⟨"p1", 25⟩ : InvItem).catalog_object_id)
            [(⟨"p1", "P"⟩ : CatalogItem)] = some ⟨"p1", "P"⟩ from rfl]
        rw [Option.map_some']
        dsimp only
        rw [hv, hpct]
        norm_num [determine_status, calculate_reorder_quantity]
      have heq : check_stock_levels 5 20 "loc" [⟨"p1", 25⟩] [⟨"p1", "P"⟩] [] =
          [⟨"p1", "P", "loc", 25, 100, 25, "healthy", 0, none, 0⟩] := by
        rw [check_stock_levels_eq_filterMap]
        simp [hpi]
      rw [heq]
      exact List.mem_singleton.mpr rfl)
